import Mathlib

/-!
Verification of the StayCircle chat client (`ChatPanel`): its connection
supervisor (WebSocket lifecycle handlers with capped-linear reconnect
backoff), message reconciler (history seed, live ingestion with dedup by id),
and outbound send pipeline (validation, optimistic append, fire-and-forget
write), shallowly embedded in Lean.

Conventions of the embedding:
* JSON values delivered on the socket are modelled by `JVal`; numeric JSON
  values are modelled as integers (all numeric fields of the chat protocol
  are integral ids).  An inbound frame is `Option JVal`, `none` standing for
  a payload on which `JSON.parse` (or subsequent field access) threw.
* React `useState`/`useRef` cells of the component are collected into plain
  state records; each event handler becomes a pure function from state to
  state (plus, where relevant, the list of frames written to the wire or the
  scheduled reconnect delay).
-/

namespace StayCircle

/-- JSON values as delivered by the socket. -/
inductive JVal where
  | jnull : JVal
  | jbool : Bool → JVal
  | jnum : Int → JVal
  | jstr : String → JVal
  | jarr : List JVal → JVal
  | jobj : List (String × JVal) → JVal
  deriving Repr

/-- Field access `obj[k]` on a parsed JSON object (first binding wins;
JSON.parse produces objects with unique keys). `none` models `undefined`. -/
def jlookup (fs : List (String × JVal)) (k : String) : Option JVal :=
  match fs.find? (fun p => p.fst == k) with
  | some p => some p.snd
  | none => none

mutual

/-- JavaScript string conversion of a value, as performed by a template
literal such as the backtick string assembling `data.code` and
`data.message` in the error-frame branch of `ws.onmessage`. -/
def jToStrVal : JVal → String
  | .jnull => "null"
  | .jbool b => cond b "true" "false"
  | .jnum n => toString n
  | .jstr s => s
  | .jobj _ => "[object Object]"
  | .jarr vs => jArrStr vs

/-- JavaScript `Array.prototype.toString`: elements joined with commas,
`null` rendered as the empty string. -/
def jArrStr : List JVal → String
  | [] => ""
  | [.jnull] => ""
  | [v] => jToStrVal v
  | .jnull :: vs => "," ++ jArrStr vs
  | v :: vs => jToStrVal v ++ "," ++ jArrStr vs

end

/-- Template-literal conversion of a possibly-absent field
(`undefined` renders as the string "undefined"). -/
def jToStr : Option JVal → String
  | none => "undefined"
  | some v => jToStrVal v

/-- `data.k` stringified, for `data` an arbitrary parsed value. -/
def jFieldStr (v : JVal) (k : String) : String :=
  match v with
  | .jobj fs => jToStr (jlookup fs k)
  | _ => "undefined"

/-- The guard `data && typeof data === "object" && data.type === "error"`
of `ws.onmessage`: a (non-null) object whose `type` field is the string
"error". -/
def isErrorFrame : JVal → Bool
  | .jobj fs =>
    match jlookup fs "type" with
    | some (.jstr s) => s == "error"
    | _ => false
  | _ => false

/-- A chat message as held in the transcript (`ChatMessage` of `lib/api.ts`).
The TypeScript interface declares `created_at : string`, but `ws.onmessage`
never validates that field, so at runtime it holds whatever the frame
carried (possibly nothing); we therefore model it as the raw looked-up JSON
value. -/
structure ChatMessage where
  id : Int
  property_id : Int
  sender_id : Int
  text : String
  created_at : Option JVal
  deriving Repr

/-- The field validation of the ChatMessage branch of `ws.onmessage`:
`typeof msg.id === "number" && typeof msg.property_id === "number" &&
typeof msg.sender_id === "number" && typeof msg.text === "string"`.
Values that are not objects reach this check only to fail it (or, for
`null`, to throw — which the surrounding catch swallows), so they decode to
`none`.  `created_at` is carried through without any check. -/
def decodeChatMessage : JVal → Option ChatMessage
  | .jobj fs =>
    match jlookup fs "id", jlookup fs "property_id",
          jlookup fs "sender_id", jlookup fs "text" with
    | some (.jnum i), some (.jnum p), some (.jnum sd), some (.jstr t) =>
        some { id := i, property_id := p, sender_id := sd, text := t,
               created_at := jlookup fs "created_at" }
    | _, _, _, _ => none
  | _ => none

/-- Connection state indicator (`ConnState` of `ChatPanel`). -/
inductive ConnState where
  | disconnected : ConnState
  | connecting : ConnState
  | connected : ConnState
  | error : ConnState
  deriving Repr, DecidableEq

/-- The live-ingestion reducer passed to `setMessages` in `ws.onmessage`:
`prev.some((m) => m.id === msg.id) ? prev : [...prev, msg]` — append unless
an entry with the same id already exists. -/
def ingestLive (prev : List ChatMessage) (msg : ChatMessage) : List ChatMessage :=
  if prev.any (fun m => m.id == msg.id) then prev else prev ++ [msg]

/-- The history seed `setMessages(hist)`: replaces the transcript wholesale
with the fetched snapshot. -/
def seed (hist : List ChatMessage) : List ChatMessage := hist

/-- Specification-side helper: the sublist of `ms` whose ids are new with
respect to the already-seen ids `seen`, in arrival order, keeping the first
occurrence of each id.  Used to state the seed-then-live ordering law. -/
def dedupNewById (seen : List Int) : List ChatMessage → List ChatMessage
  | [] => []
  | m :: ms =>
      if m.id ∈ seen then dedupNewById seen ms
      else m :: dedupNewById (m.id :: seen) ms

/-- The component state touched by the message handler and the send
pipeline: the `connState` and `error` `useState` cells, the transcript, the
input box, and whether `wsRef.current` holds a socket. -/
structure PanelState where
  connState : ConnState
  errorMsg : Option String
  messages : List ChatMessage
  input : String
  wsPresent : Bool
  deriving Repr

/-- `ws.onmessage`.  The frame is the result of `JSON.parse` (`none` when it
threw).  Returns the new state together with whether the handler requested a
socket close (it never does — only `ws.onerror` closes the socket).
Branches, in source order: structured error frame → surface
`` `${data.code}: ${data.message}` `` without touching the connection;
ChatMessage-shaped frame → dedup-append via `ingestLive`; anything else →
silently ignored. -/
def onMessage (s : PanelState) (frame : Option JVal) : PanelState × Bool :=
  match frame with
  | none => (s, false)
  | some data =>
    if isErrorFrame data then
      ({ s with
          errorMsg :=
            some (jFieldStr data "code" ++ ": " ++ jFieldStr data "message") },
       false)
    else
      match decodeChatMessage data with
      | some msg => ({ s with messages := ingestLive s.messages msg }, false)
      | none => (s, false)

/-- JavaScript `String.prototype.trim` as used by `input.trim()` in `send`
(and by the `canSend` guard): strip leading and trailing whitespace.
Implemented structurally over the character list so that concrete instances
reduce. -/
def jsTrim (s : String) : String :=
  String.mk
    (((s.toList.dropWhile Char.isWhitespace).reverse.dropWhile
        Char.isWhitespace).reverse)

/-- `ChatPanel.send`.  Arguments: the current state, the `propertyId` prop,
the current user's id (`auth?.user?.id ?? 0`), the clock value `Date.now()`
in milliseconds, the rendered `new Date().toISOString()` string, and whether
the socket write succeeds (`false` models `ws.send` throwing).  Returns the
new state and the list of payload texts written to the wire.  Mirrors the
source: early return when no socket or not connected; length validation on
the trimmed text; optimistic append with `tmpId = -Date.now()` and input
cleared before the guarded write; on a throwing write, only the error
message changes — the optimistic entry stays. -/
def send (s : PanelState) (propertyId senderId : Int) (now : Nat)
    (nowIso : String) (writeOk : Bool) : PanelState × List String :=
  if ¬ (s.wsPresent ∧ s.connState = ConnState.connected) then (s, [])
  else
    let text := jsTrim s.input
    if text.length < 1 ∨ text.length > 1000 then
      ({ s with errorMsg := some "Message must be 1..1000 characters" }, [])
    else
      let tmpId : Int := -(now : Int)
      let optimistic : ChatMessage :=
        { id := tmpId, property_id := propertyId, sender_id := senderId,
          text := text, created_at := some (JVal.jstr nowIso) }
      let s1 := { s with messages := s.messages ++ [optimistic], input := "" }
      if writeOk then (s1, [text])
      else ({ s1 with errorMsg := some "Failed to send message" }, [])

/-- The supervisor cells touched by the socket lifecycle handlers:
`reconnectAttemptsRef`, `connectingRef`, `connState`, `error`. -/
structure SupState where
  reconnectAttempts : Nat
  connecting : Bool
  connState : ConnState
  errorMsg : Option String
  deriving Repr, DecidableEq

/-- `ws.onopen`: reset the attempt counter, clear the single-flight flag,
mark connected, clear the error. -/
def wsOnOpen (s : SupState) : SupState :=
  { s with reconnectAttempts := 0, connecting := false,
           connState := ConnState.connected, errorMsg := none }

/-- `ws.onclose`: clear the single-flight flag, mark disconnected, increment
the attempt counter, and schedule a reconnect after
`Math.min(5000, 300 * attempt)` milliseconds (the returned value). -/
def wsOnClose (s : SupState) : SupState × Nat :=
  ({ s with connecting := false, connState := ConnState.disconnected,
            reconnectAttempts := s.reconnectAttempts + 1 },
   min 5000 (300 * (s.reconnectAttempts + 1)))

/-- `ws.onerror`: clear the single-flight flag, mark errored, surface
"WebSocket error", and force-close the socket (which will in turn fire
`ws.onclose`).  The attempt counter is untouched here. -/
def wsOnError (s : SupState) : SupState :=
  { s with connecting := false, connState := ConnState.error,
           errorMsg := some "WebSocket error" }

/-- Delays scheduled by `n` consecutive close events starting from state
`s`, in order. -/
def closeDelays : SupState → Nat → List Nat
  | _, 0 => []
  | s, n + 1 => (wsOnClose s).snd :: closeDelays (wsOnClose s).fst n

/-- Event-loop level model of the connect/teardown lifecycle, projecting the
component onto the fields those paths touch.  `pendingTimers` counts
reconnect callbacks scheduled by `setTimeout` in `ws.onclose` and not yet
fired; the source never stores the timer id and never calls `clearTimeout`,
so nothing ever removes a pending timer except its firing.  `torn` is a
ghost flag set when the connect effect's cleanup has run; `socketsOpened`
counts `new WebSocket(url)` constructions. -/
structure LoopState where
  hasToken : Bool
  connecting : Bool
  wsAlive : Bool
  connState : ConnState
  reconnectAttempts : Nat
  pendingTimers : Nat
  torn : Bool
  socketsOpened : Nat
  deriving Repr, DecidableEq

/-- `connect()`: no-op without a token or while the single-flight flag is
set; otherwise set the flag, mark connecting, and construct a new socket. -/
def loopConnect (s : LoopState) : LoopState :=
  if !s.hasToken || s.connecting then s
  else { s with connecting := true, connState := ConnState.connecting,
                wsAlive := true, socketsOpened := s.socketsOpened + 1 }

/-- The open event at loop level (`ws.onopen`). -/
def loopOpen (s : LoopState) : LoopState :=
  { s with reconnectAttempts := 0, connecting := false,
           connState := ConnState.connected }

/-- The close event at loop level (`ws.onclose`): schedules one reconnect
timer, which nothing in the source ever cancels. -/
def loopClose (s : LoopState) : LoopState :=
  { s with connecting := false, connState := ConnState.disconnected,
           wsAlive := false,
           reconnectAttempts := s.reconnectAttempts + 1,
           pendingTimers := s.pendingTimers + 1 }

/-- The connect effect's cleanup (teardown): `wsRef.current?.close()` —
which fires the close event on the still-registered handler, scheduling yet
another reconnect timer — then `wsRef.current = null`.  No `clearTimeout`,
no stale-session guard. -/
def loopTeardown (s : LoopState) : LoopState :=
  let s1 := if s.wsAlive then loopClose s else s
  { s1 with wsAlive := false, torn := true }

/-- A scheduled reconnect timer fires: `if (token) connect()`.  The captured
token is still present after teardown, so the guard passes and `connect()`
runs. -/
def loopTimerFire (s : LoopState) : LoopState :=
  if s.pendingTimers = 0 then s
  else
    let s1 := { s with pendingTimers := s.pendingTimers - 1 }
    if s1.hasToken then loopConnect s1 else s1

/-- A freshly mounted session with a valid token. -/
def loopInit : LoopState :=
  { hasToken := true, connecting := false, wsAlive := false,
    connState := ConnState.disconnected, reconnectAttempts := 0,
    pendingTimers := 0, torn := false, socketsOpened := 0 }

/-! ### Reconciler lemmas -/

/-- If some existing entry already carries `msg.id`, `ingestLive` is a
no-op. -/
theorem ingestLive_of_dup (T : List ChatMessage) (m : ChatMessage)
    (h : m.id ∈ T.map (fun x => x.id)) : ingestLive T m = T := by
  have hany : T.any (fun x => x.id == m.id) = true := by
    rcases List.mem_map.mp h with ⟨x, hx, hid⟩
    exact List.any_eq_true.mpr ⟨x, hx, beq_iff_eq.mpr hid⟩
  simp [ingestLive, hany]

/-- If no existing entry carries `msg.id`, `ingestLive` appends. -/
theorem ingestLive_of_new (T : List ChatMessage) (m : ChatMessage)
    (h : m.id ∉ T.map (fun x => x.id)) : ingestLive T m = T ++ [m] := by
  have hany : T.any (fun x => x.id == m.id) = false := by
    apply List.any_eq_false.mpr
    intro x hx hbeq
    exact h (List.mem_map.mpr ⟨x, hx, beq_iff_eq.mp hbeq⟩)
  simp [ingestLive, hany]

/-- `dedupNewById` depends on the seen list only through membership. -/
theorem dedupNewById_congr (ms : List ChatMessage) :
    ∀ s1 s2 : List Int, (∀ x, x ∈ s1 ↔ x ∈ s2) →
      dedupNewById s1 ms = dedupNewById s2 ms := by
  induction ms with
  | nil => intro s1 s2 _; rfl
  | cons m ms ih =>
    intro s1 s2 h
    simp only [dedupNewById]
    by_cases hm : m.id ∈ s1
    · rw [if_pos hm, if_pos ((h m.id).mp hm), ih s1 s2 h]
    · rw [if_neg hm, if_neg (fun c => hm ((h m.id).mpr c)),
        ih (m.id :: s1) (m.id :: s2) (by intro x; simp [h x])]

/-- Folding `ingestLive` over a batch of live messages appends exactly the
id-fresh ones, in arrival order. -/
theorem foldl_ingestLive_eq (ms : List ChatMessage) :
    ∀ T : List ChatMessage,
      List.foldl ingestLive T ms = T ++ dedupNewById (T.map fun m => m.id) ms := by
  induction ms with
  | nil => intro T; simp [dedupNewById]
  | cons m ms ih =>
    intro T
    by_cases h : m.id ∈ T.map (fun x => x.id)
    · rw [List.foldl_cons, ingestLive_of_dup T m h, ih T]
      simp only [dedupNewById]
      rw [if_pos h]
    · rw [List.foldl_cons, ingestLive_of_new T m h, ih (T ++ [m])]
      have hids : (T ++ [m]).map (fun x => x.id)
          = T.map (fun x => x.id) ++ [m.id] := by simp
      rw [hids,
        dedupNewById_congr ms (T.map (fun x => x.id) ++ [m.id])
          (m.id :: T.map (fun x => x.id)) (by intro x; simp [or_comm])]
      simp only [dedupNewById]
      rw [if_neg h, List.append_assoc]
      rfl

/-- Claim C2: seeding with snapshot `S` and then ingesting live messages
`m1, m2, ...` in call order yields exactly `S` followed by the live messages
in arrival order with duplicates (by id, against the snapshot and against
earlier live entries) removed; live entries are appended in arrival order,
never re-sorted by `created_at`. -/
theorem seed_then_ingestLive_ordering (S ms : List ChatMessage) :
    List.foldl ingestLive (seed S) ms
      = seed S ++ dedupNewById ((seed S).map fun m => m.id) ms :=
  foldl_ingestLive_eq ms (seed S)

/-- Claim C3: delivering a message with an already-ingested id a second time
is a no-op — the transcript, and in particular its length, is unchanged by
the repeated delivery. -/
theorem ingestLive_repeat_noop (T : List ChatMessage) (m m' : ChatMessage)
    (h : m'.id = m.id) :
    ingestLive (ingestLive T m) m' = ingestLive T m ∧
    (ingestLive (ingestLive T m) m').length = (ingestLive T m).length := by
  have key : ingestLive (ingestLive T m) m' = ingestLive T m := by
    by_cases hT : m.id ∈ T.map (fun x => x.id)
    · rw [ingestLive_of_dup T m hT, ingestLive_of_dup T m' (h ▸ hT)]
    · rw [ingestLive_of_new T m hT]
      apply ingestLive_of_dup
      simp [h]
  exact ⟨key, by rw [key]⟩

/-- Concrete message used to instantiate claim C3. -/
def cmA : ChatMessage :=
  { id := 5, property_id := 1, sender_id := 2, text := "a", created_at := none }

/-- A second delivery carrying the same id as `cmA` but different text. -/
def cmB : ChatMessage :=
  { id := 5, property_id := 1, sender_id := 2, text := "b", created_at := none }

/-- Witness for claim C3 at a concrete repeated delivery. -/
theorem ingestLive_repeat_noop_witness :
    cmB.id = cmA.id ∧
    (ingestLive (ingestLive [] cmA) cmB = ingestLive [] cmA ∧
     (ingestLive (ingestLive [] cmA) cmB).length = (ingestLive [] cmA).length) :=
  ⟨rfl, ingestLive_repeat_noop [] cmA cmB rfl⟩

/-! ### Connection supervisor: backoff and teardown -/

/-- Claim C1: every close schedules a reconnect after
`min(5000, 300 * attempt)` ms where `attempt` is the counter incremented by
that close; the counter resets to 0 exactly on a successful open (the error
handler leaves it untouched); three consecutive closes after a successful
open schedule delays 300, 600, 900 ms — linear-capped, not exponential. -/
theorem backoff_linear_capped (s : SupState) :
    (wsOnClose s).snd = min 5000 (300 * (wsOnClose s).fst.reconnectAttempts) ∧
    (wsOnClose s).fst.reconnectAttempts = s.reconnectAttempts + 1 ∧
    (wsOnOpen s).reconnectAttempts = 0 ∧
    (wsOnError s).reconnectAttempts = s.reconnectAttempts ∧
    closeDelays (wsOnOpen s) 3 = [300, 600, 900] := by
  refine ⟨rfl, rfl, rfl, rfl, ?_⟩
  simp [closeDelays, wsOnOpen, wsOnClose]

/-- The session state reached by: mount with a valid token, `connect()`,
socket opens, then teardown (resource change or unmount). -/
def afterTeardown : LoopState := loopTeardown (loopOpen (loopConnect loopInit))

/-- The state after the pending reconnect timer fires on the torn-down
session. -/
def afterStaleTimer : LoopState := loopTimerFire afterTeardown

/-- Claim C6 is violated by the code: teardown closes the socket, but the
close handler schedules a reconnect timer that teardown never cancels (the
source stores no timer id and never calls `clearTimeout`), and the timer
callback has no stale-session guard — when it fires, `connect()` opens a
second socket for the torn-down session. -/
theorem teardown_stale_timer_reconnects :
    afterTeardown.torn = true ∧
    afterTeardown.socketsOpened = 1 ∧
    afterTeardown.pendingTimers = 1 ∧
    afterStaleTimer.torn = true ∧
    afterStaleTimer.socketsOpened = 2 ∧
    afterStaleTimer.wsAlive = true := by
  refine ⟨rfl, rfl, rfl, rfl, rfl, rfl⟩

/-! ### Outbound send pipeline -/

/-- A sendable state: socket present, connected, valid input. -/
def c5SendState : PanelState :=
  { connState := ConnState.connected, errorMsg := none, messages := [],
    input := "hi", wsPresent := true }

/-- One accepted send at clock value 1000 ms. -/
def c5Once : PanelState := (send c5SendState 1 123 1000 "t" true).fst

/-- A second accepted send, with new input, at the same clock value. -/
def c5Twice : PanelState :=
  (send { c5Once with input := "there" } 1 123 1000 "t" true).fst

/-- Counterexample to claim C5 as stated: two accepted sends in the same
session whose `Date.now()` values coincide (same millisecond) produce the
same placeholder id, `-1000`, so the generated id is not distinct from the
id of every prior placeholder of the session. -/
theorem same_millisecond_placeholder_collision :
    c5Twice.messages.map (fun m => m.id) = [-1000, -1000] := by rfl

/-- Claim C5 as amended: an accepted send appends, immediately and
independently of whether the network write succeeds, exactly one transcript
entry whose id is `-(Date.now())`, whose text is the trimmed input, and
whose sender is the current user; the id is negative whenever the clock
value is positive, placeholder ids generated at distinct millisecond clock
values are distinct, and a placeholder id never collides with a
non-negative server-assigned id. -/
theorem send_optimistic_placeholder (s : PanelState) (pid uid : Int)
    (now : Nat) (iso : String) (wok : Bool)
    (hws : s.wsPresent = true) (hconn : s.connState = ConnState.connected)
    (hlo : 1 ≤ (jsTrim s.input).length) (hhi : (jsTrim s.input).length ≤ 1000) :
    (send s pid uid now iso wok).fst.messages
      = s.messages ++
        [{ id := -(now : Int), property_id := pid, sender_id := uid,
           text := jsTrim s.input, created_at := some (JVal.jstr iso) }] ∧
    (0 < now → -(now : Int) < 0) ∧
    (∀ n2 : Nat, n2 ≠ now → -(n2 : Int) ≠ -(now : Int)) ∧
    (∀ sid : Int, 0 ≤ sid → 0 < now → -(now : Int) ≠ sid) := by
  have hc : s.wsPresent ∧ s.connState = ConnState.connected := ⟨hws, hconn⟩
  have h0 : (jsTrim s.input).length ≠ 0 := by omega
  have h1 : ¬ 1000 < (jsTrim s.input).length := by omega
  refine ⟨?_, ?_, ?_, ?_⟩
  · cases wok <;> simp [send, hc, h0, h1]
  · intro h; omega
  · intro n2 h; omega
  · intro sid h h'; omega

/-- Witness for the amended claim C5 at a concrete accepted send. -/
theorem send_optimistic_placeholder_witness :
    (c5SendState.wsPresent = true ∧
     c5SendState.connState = ConnState.connected ∧
     1 ≤ (jsTrim c5SendState.input).length ∧
     (jsTrim c5SendState.input).length ≤ 1000) ∧
    ((send c5SendState 1 123 42 "t" true).fst.messages
       = c5SendState.messages ++
         [{ id := -((42 : Nat) : Int), property_id := 1, sender_id := 123,
            text := jsTrim c5SendState.input,
            created_at := some (JVal.jstr "t") }] ∧
     (0 < 42 → -((42 : Nat) : Int) < 0) ∧
     (∀ n2 : Nat, n2 ≠ 42 → -(n2 : Int) ≠ -((42 : Nat) : Int)) ∧
     (∀ sid : Int, 0 ≤ sid → 0 < 42 → -((42 : Nat) : Int) ≠ sid)) :=
  ⟨⟨rfl, rfl, by decide, by decide⟩,
   send_optimistic_placeholder c5SendState 1 123 42 "t" true rfl rfl
     (by decide) (by decide)⟩

/-- A send attempt while disconnected (socket still referenced, valid
input). -/
def c4State : PanelState :=
  { connState := ConnState.disconnected, errorMsg := none, messages := [],
    input := "hi", wsPresent := true }

/-- Counterexample to claim C4 as stated: a send attempted while the
connection state is not `connected` is silently ignored — no local
validation error is reported (the error cell stays `none`), contradicting
the claim that every precondition violation is reported. -/
theorem send_not_connected_silent :
    (send c4State 1 123 5 "t" true).fst.errorMsg = none ∧
    c4State.connState ≠ ConnState.connected := ⟨rfl, by decide⟩

/-- Claim C4 as amended: when the precondition fails the transcript is
never mutated and nothing is written to the socket; a length violation
while connected is reported as the local validation error "Message must be
1..1000 characters", but an attempt without a socket or while not connected
is silently ignored, leaving the whole state (error cell included)
unchanged. -/
theorem send_precondition_violation (s : PanelState) (pid uid : Int)
    (now : Nat) (iso : String) (wok : Bool)
    (h : ¬ (s.wsPresent ∧ s.connState = ConnState.connected) ∨
         (jsTrim s.input).length < 1 ∨ (jsTrim s.input).length > 1000) :
    (send s pid uid now iso wok).fst.messages = s.messages ∧
    (send s pid uid now iso wok).snd = [] ∧
    (¬ (s.wsPresent ∧ s.connState = ConnState.connected) →
        (send s pid uid now iso wok).fst = s) ∧
    ((s.wsPresent ∧ s.connState = ConnState.connected) →
        (send s pid uid now iso wok).fst.errorMsg
          = some "Message must be 1..1000 characters") := by
  by_cases hc : s.wsPresent ∧ s.connState = ConnState.connected
  · have hlen : (jsTrim s.input).length = 0 ∨ 1000 < (jsTrim s.input).length := by
      rcases h with h | h | h
      · exact absurd hc h
      · exact Or.inl (by omega)
      · exact Or.inr (by omega)
    simp [send, hc, hlen]
  · simp [send, hc]

/-- Witness for the amended claim C4 at a concrete not-connected send. -/
theorem send_precondition_violation_witness :
    (¬ (c4State.wsPresent ∧ c4State.connState = ConnState.connected) ∨
       (jsTrim c4State.input).length < 1 ∨ (jsTrim c4State.input).length > 1000) ∧
    ((send c4State 1 123 5 "t" true).fst.messages = c4State.messages ∧
     (send c4State 1 123 5 "t" true).snd = [] ∧
     (¬ (c4State.wsPresent ∧ c4State.connState = ConnState.connected) →
         (send c4State 1 123 5 "t" true).fst = c4State) ∧
     ((c4State.wsPresent ∧ c4State.connState = ConnState.connected) →
         (send c4State 1 123 5 "t" true).fst.errorMsg
           = some "Message must be 1..1000 characters")) :=
  ⟨Or.inl (by decide),
   send_precondition_violation c4State 1 123 5 "t" true (Or.inl (by decide))⟩

/-- A sendable state for the write-failure scenario. -/
def c7State : PanelState :=
  { connState := ConnState.connected, errorMsg := none, messages := [],
    input := "hello", wsPresent := true }

/-- Claim C7: when the socket write of an accepted send throws, the send
error "Failed to send message" is surfaced, yet the transcript is exactly
the one a successful write would have produced — the optimistic entry is
appended and neither rolled back nor marked failed — and no frame reaches
the wire (no retry: the failing send writes nothing). -/
theorem send_write_failure_keeps_optimistic (s : PanelState) (pid uid : Int)
    (now : Nat) (iso : String)
    (hws : s.wsPresent = true) (hconn : s.connState = ConnState.connected)
    (hlo : 1 ≤ (jsTrim s.input).length) (hhi : (jsTrim s.input).length ≤ 1000) :
    (send s pid uid now iso false).fst.errorMsg = some "Failed to send message" ∧
    (send s pid uid now iso false).fst.messages
      = (send s pid uid now iso true).fst.messages ∧
    (send s pid uid now iso false).fst.messages
      = s.messages ++
        [{ id := -(now : Int), property_id := pid, sender_id := uid,
           text := jsTrim s.input, created_at := some (JVal.jstr iso) }] ∧
    (send s pid uid now iso false).snd = [] := by
  have hc : s.wsPresent ∧ s.connState = ConnState.connected := ⟨hws, hconn⟩
  have h0 : (jsTrim s.input).length ≠ 0 := by omega
  have h1 : ¬ 1000 < (jsTrim s.input).length := by omega
  refine ⟨?_, ?_, ?_, ?_⟩ <;> simp [send, hc, h0, h1]

/-- Witness for claim C7 at a concrete failing write. -/
theorem send_write_failure_keeps_optimistic_witness :
    (c7State.wsPresent = true ∧ c7State.connState = ConnState.connected ∧
     1 ≤ (jsTrim c7State.input).length ∧ (jsTrim c7State.input).length ≤ 1000) ∧
    ((send c7State 2 9 77 "t" false).fst.errorMsg = some "Failed to send message" ∧
     (send c7State 2 9 77 "t" false).fst.messages
       = (send c7State 2 9 77 "t" true).fst.messages ∧
     (send c7State 2 9 77 "t" false).fst.messages
       = c7State.messages ++
         [{ id := -((77 : Nat) : Int), property_id := 2, sender_id := 9,
            text := jsTrim c7State.input,
            created_at := some (JVal.jstr "t") }] ∧
     (send c7State 2 9 77 "t" false).snd = []) :=
  ⟨⟨rfl, rfl, by decide, by decide⟩,
   send_write_failure_keeps_optimistic c7State 2 9 77 "t" rfl rfl
     (by decide) (by decide)⟩

/-! ### Inbound frame handling -/

/-- A malformed inbound frame: either `JSON.parse` (or subsequent field
access) threw, or the parsed value is neither a structured error frame nor
a ChatMessage-shaped object passing field validation. -/
def malformedFrame (f : Option JVal) : Prop :=
  f = none ∨ ∃ v, f = some v ∧ isErrorFrame v = false ∧ decodeChatMessage v = none

/-- Claim C8: a structured error frame received while connected surfaces an
advisory error message but leaves the connection state `connected`, the
transcript untouched, and the socket open (the message handler never
requests a close); a malformed frame, by contrast, is dropped silently —
state completely unchanged, no error surfaced, socket untouched. -/
theorem error_frame_nonfatal_malformed_silent (s : PanelState) (v : JVal)
    (f : Option JVal) (hconn : s.connState = ConnState.connected)
    (herr : isErrorFrame v = true) (hmal : malformedFrame f) :
    ((onMessage s (some v)).fst.connState = ConnState.connected ∧
     (onMessage s (some v)).fst.messages = s.messages ∧
     (∃ e, (onMessage s (some v)).fst.errorMsg = some e) ∧
     (onMessage s (some v)).snd = false) ∧
    ((onMessage s f).fst = s ∧ (onMessage s f).snd = false) := by
  constructor
  · simp [onMessage, herr, hconn]
  · rcases hmal with h | ⟨w, hw, hw1, hw2⟩
    · subst h; exact ⟨rfl, rfl⟩
    · subst hw; simp [onMessage, hw1, hw2]

/-- A connected panel state with a seeded transcript entry. -/
def c8State : PanelState :=
  { connState := ConnState.connected, errorMsg := none,
    messages := [{ id := 1, property_id := 1, sender_id := 9, text := "earlier",
                   created_at := none }],
    input := "", wsPresent := true }

/-- A structured error frame as sent by the server. -/
def c8ErrFrame : JVal :=
  JVal.jobj [("type", JVal.jstr "error"), ("code", JVal.jstr "auth"),
             ("message", JVal.jstr "expired token")]

/-- Witness for claim C8 at a concrete error frame and a concrete malformed
frame (a bare JSON string). -/
theorem error_frame_nonfatal_malformed_silent_witness :
    (c8State.connState = ConnState.connected ∧
     isErrorFrame c8ErrFrame = true ∧
     malformedFrame (some (JVal.jstr "junk"))) ∧
    (((onMessage c8State (some c8ErrFrame)).fst.connState = ConnState.connected ∧
      (onMessage c8State (some c8ErrFrame)).fst.messages = c8State.messages ∧
      (∃ e, (onMessage c8State (some c8ErrFrame)).fst.errorMsg = some e) ∧
      (onMessage c8State (some c8ErrFrame)).snd = false) ∧
     ((onMessage c8State (some (JVal.jstr "junk"))).fst = c8State ∧
      (onMessage c8State (some (JVal.jstr "junk"))).snd = false)) :=
  ⟨⟨rfl, rfl, Or.inr ⟨JVal.jstr "junk", rfl, rfl, rfl⟩⟩,
   error_frame_nonfatal_malformed_silent c8State c8ErrFrame
     (some (JVal.jstr "junk")) rfl rfl (Or.inr ⟨JVal.jstr "junk", rfl, rfl, rfl⟩)⟩

/-- Claim C9: the message handler performs no resource-id filtering — a
validated ChatMessage frame whose `property_id` differs from the active
session's property is still appended to the transcript (provided only that
its id is fresh, the one check the handler does make). -/
theorem no_resource_id_filtering (s : PanelState) (v : JVal)
    (msg : ChatMessage) (sessionPid : Int)
    (hnotErr : isErrorFrame v = false)
    (hdec : decodeChatMessage v = some msg)
    (hfresh : ∀ m ∈ s.messages, m.id ≠ msg.id)
    (_hdiff : msg.property_id ≠ sessionPid) :
    (onMessage s (some v)).fst.messages = s.messages ++ [msg] := by
  have hnew : msg.id ∉ s.messages.map (fun x => x.id) := by
    intro hmem
    rcases List.mem_map.mp hmem with ⟨x, hx, hid⟩
    exact hfresh x hx hid
  simp [onMessage, hnotErr, hdec, ingestLive_of_new s.messages msg hnew]

/-- A live frame for property 999, received by a session scoped to
property 1. -/
def c9Frame : JVal :=
  JVal.jobj [("id", JVal.jnum 7), ("property_id", JVal.jnum 999),
             ("sender_id", JVal.jnum 3), ("text", JVal.jstr "stray"),
             ("created_at", JVal.jstr "2024-01-01T00:00:00Z")]

/-- The decoded form of `c9Frame`. -/
def c9Msg : ChatMessage :=
  { id := 7, property_id := 999, sender_id := 3, text := "stray",
    created_at := some (JVal.jstr "2024-01-01T00:00:00Z") }

/-- A connected session scoped to property 1 with an empty transcript. -/
def c9State : PanelState :=
  { connState := ConnState.connected, errorMsg := none, messages := [],
    input := "", wsPresent := true }

/-- Witness for claim C9: the property-999 frame enters the transcript of
the property-1 session. -/
theorem no_resource_id_filtering_witness :
    (isErrorFrame c9Frame = false ∧
     decodeChatMessage c9Frame = some c9Msg ∧
     (∀ m ∈ c9State.messages, m.id ≠ c9Msg.id) ∧
     c9Msg.property_id ≠ (1 : Int)) ∧
    (onMessage c9State (some c9Frame)).fst.messages = c9State.messages ++ [c9Msg] :=
  ⟨⟨rfl, rfl, by simp [c9State], by decide⟩,
   no_resource_id_filtering c9State c9Frame c9Msg 1 rfl rfl
     (by simp [c9State]) (by decide)⟩

/-- Claim C10: inbound field validation checks only that `id`,
`property_id` and `sender_id` are numbers and `text` is a string; the
`created_at` field is never inspected, so the frame decodes — and, when not
an error frame and id-fresh, is appended — with whatever `created_at`
carries, including nothing at all or a non-string value. -/
theorem created_at_not_validated (fs : List (String × JVal)) (i p sd : Int)
    (t : String)
    (hid : jlookup fs "id" = some (JVal.jnum i))
    (hp : jlookup fs "property_id" = some (JVal.jnum p))
    (hs : jlookup fs "sender_id" = some (JVal.jnum sd))
    (ht : jlookup fs "text" = some (JVal.jstr t)) :
    decodeChatMessage (JVal.jobj fs)
      = some { id := i, property_id := p, sender_id := sd, text := t,
               created_at := jlookup fs "created_at" } ∧
    (isErrorFrame (JVal.jobj fs) = false →
      ∀ s : PanelState, (∀ m ∈ s.messages, m.id ≠ i) →
        (onMessage s (some (JVal.jobj fs))).fst.messages
          = s.messages ++
            [{ id := i, property_id := p, sender_id := sd, text := t,
               created_at := jlookup fs "created_at" }]) := by
  have hdec : decodeChatMessage (JVal.jobj fs)
      = some { id := i, property_id := p, sender_id := sd, text := t,
               created_at := jlookup fs "created_at" } := by
    simp [decodeChatMessage, hid, hp, hs, ht]
  refine ⟨hdec, ?_⟩
  intro hne s hfresh
  have hnew : i ∉ s.messages.map (fun x => x.id) := by
    intro hmem
    rcases List.mem_map.mp hmem with ⟨x, hx, hid'⟩
    exact hfresh x hx hid'
  have happ := ingestLive_of_new s.messages
    { id := i, property_id := p, sender_id := sd, text := t,
      created_at := jlookup fs "created_at" } hnew
  simp [onMessage, hne, hdec, happ]

/-- The fields of a frame carrying no `created_at` at all. -/
def c10Fields : List (String × JVal) :=
  [("id", JVal.jnum 11), ("property_id", JVal.jnum 2),
   ("sender_id", JVal.jnum 3), ("text", JVal.jstr "x")]

/-- The fields of a frame whose `created_at` is a (non-string) number. -/
def c10FieldsNum : List (String × JVal) :=
  [("id", JVal.jnum 12), ("property_id", JVal.jnum 2),
   ("sender_id", JVal.jnum 3), ("text", JVal.jstr "y"),
   ("created_at", JVal.jnum 7)]

/-- Witness for claim C10: a frame missing `created_at` and a frame with a
numeric `created_at` both decode and are appended. -/
theorem created_at_not_validated_witness :
    (jlookup c10Fields "id" = some (JVal.jnum 11) ∧
     jlookup c10Fields "text" = some (JVal.jstr "x") ∧
     jlookup c10FieldsNum "created_at" = some (JVal.jnum 7)) ∧
    decodeChatMessage (JVal.jobj c10Fields)
      = some { id := 11, property_id := 2, sender_id := 3, text := "x",
               created_at := jlookup c10Fields "created_at" } ∧
    decodeChatMessage (JVal.jobj c10FieldsNum)
      = some { id := 12, property_id := 2, sender_id := 3, text := "y",
               created_at := jlookup c10FieldsNum "created_at" } :=
  ⟨⟨rfl, rfl, rfl⟩,
   (created_at_not_validated c10Fields 11 2 3 "x" rfl rfl rfl rfl).1,
   (created_at_not_validated c10FieldsNum 12 2 3 "y" rfl rfl rfl rfl).1⟩

end StayCircle
